import Mathlib

/-!
# AutoGrader Scoring Engine — shallow embedding and verification

This file embeds the deterministic Scoring Engine of the AutoGrader
repository (`src/agents/scoring_agent.py`, `src/agents/orchestrator_agent.py`,
`src/models/core.py`, `src/models/io.py`) in Lean 4 and proves the spec's
claims about it.

Modelling conventions:
* Python floats are modelled as rationals (`ℚ`): every operation the engine
  performs (products, sums, division, `max`/`min`, `round(x, n)`) is exact
  real arithmetic in the spec, and `ℚ` realises it exactly.
* Python's `round(x, n)` rounds half to even; `roundHalfEven` reproduces that
  tie-breaking rule exactly on `ℚ`.
* Pydantic validation (the fail-fast boundary of `models/core.py` and
  `models/io.py`) is modelled with `Except String`, checking the declared
  field constraints and field validators in declaration order.
* The `timestamp` field of `GradingResult` (a wall-clock default) is the one
  nondeterministic field and is left out of the embedded record; the
  orchestrator-filled fields `submission_id` and `processing_time_seconds`
  are kept with the placeholder values the engine writes.
-/

namespace AutoGrader

/-- The closed severity enumeration of `CriterionEvaluation.severity`
(`Literal["critical", "important", "minor", "strength"]` in `models/core.py`). -/
inductive Severity where
  | critical
  | important
  | minor
  | strength
deriving DecidableEq, Repr

/-- Parse a raw severity string, as pydantic's `Literal` check does: exactly
the four enumerated strings are accepted. -/
def Severity.ofString : String → Option Severity
  | "critical" => some .critical
  | "important" => some .important
  | "minor" => some .minor
  | "strength" => some .strength
  | _ => none

/-- One evaluated criterion (`CriterionEvaluation` in `models/core.py`).
The informational list fields (`evidence`, `strengths`, `weaknesses`,
`suggestions`) play no role in scoring and are omitted from the embedding. -/
structure CriterionEvaluation where
  criterion_id : String
  criterion_name : String
  weight : ℚ
  score : ℚ
  severity : Severity
deriving DecidableEq, Repr

/-- The `CriterionEvaluation` invariants (§3 of the spec; pydantic `Field`
bounds in `models/core.py`): `score ∈ [0,100]`, `weight ∈ [0,1]`. The
severity invariant is enforced by the `Severity` type itself. -/
def ValidEvaluation (e : CriterionEvaluation) : Prop :=
  0 ≤ e.score ∧ e.score ≤ 100 ∧ 0 ≤ e.weight ∧ e.weight ≤ 1

instance (e : CriterionEvaluation) : Decidable (ValidEvaluation e) := by
  unfold ValidEvaluation; infer_instance

/-- Round a rational to the nearest integer, ties to even — the tie-breaking
rule of Python's built-in `round`. -/
def roundHalfEven (q : ℚ) : ℤ :=
  let f : ℤ := ⌊q⌋
  let r : ℚ := q - f
  if r < 1/2 then f
  else if 1/2 < r then f + 1
  else if f % 2 = 0 then f else f + 1

/-- Python's `round(x, 2)` on the rational model. -/
def round2 (q : ℚ) : ℚ := (roundHalfEven (q * 100) : ℚ) / 100

/-- Python's `round(x, 4)` (used by the `weight` field validator). -/
def round4 (q : ℚ) : ℚ := (roundHalfEven (q * 10000) : ℚ) / 10000

/-- The default severity factors of `ScoringAgent.__init__`
(`critical→0.5, important→0.8, minor→0.95, strength→1.0`). -/
def defaultFactor : Severity → ℚ
  | .critical => 1/2
  | .important => 4/5
  | .minor => 19/20
  | .strength => 1

/-- A severity-factor configuration, as injected through the agent's config:
a (possibly partial) map from severity to factor, modelling the Python dict
`self.severity_factors`. -/
def SeverityConfig := Severity → Option ℚ

/-- The default configuration: every severity mapped to its default factor. -/
def defaultConfig : SeverityConfig := fun s => some (defaultFactor s)

/-- `self.severity_factors.get(evaluation.severity, 1.0)`: dictionary lookup
with default `1.0` for missing keys (`scoring_agent.py` line 81). -/
def factorOf (cfg : SeverityConfig) (s : Severity) : ℚ := (cfg s).getD 1

/-- `ScoringAgent._apply_criticism_multiplier` (`scoring_agent.py`
lines 151–185), translated clause for clause. -/
def applyCriticismMultiplier (score multiplier : ℚ) : ℚ :=
  if 100 ≤ score then score
  else if 1 < multiplier then
    max 0 (score - (100 - score) * (multiplier - 1) * (2/10))
  else if multiplier < 1 then
    min 100 (score + (100 - score) * (1 - multiplier) * (3/10))
  else score

/-- The Score Adjuster of §4.2: severity dampening with the default factors,
then the criticism adjustment. This is what `ScoringAgent.execute` computes
per evaluation under the default configuration (lines 80–89). -/
def adjust (raw : ℚ) (sev : Severity) (multiplier : ℚ) : ℚ :=
  applyCriticismMultiplier (raw * defaultFactor sev) multiplier

/-- The fixed `criterion_id → category_name` table of
`ScoringAgent._create_category_breakdown` (`category_map`,
`scoring_agent.py` lines 200–221). -/
def categoryMap : String → Option String
  | "prd_quality" => some "Documentation"
  | "architecture_doc" => some "Documentation"
  | "readme" => some "Documentation"
  | "project_structure" => some "Code Quality"
  | "code_documentation" => some "Code Quality"
  | "code_principles" => some "Code Quality"
  | "config_management" => some "Configuration & Security"
  | "security_practices" => some "Configuration & Security"
  | "unit_tests" => some "Testing"
  | "error_handling" => some "Testing"
  | "test_results" => some "Testing"
  | "parameter_exploration" => some "Research & Analysis"
  | "analysis_notebook" => some "Research & Analysis"
  | "visualization" => some "Research & Analysis"
  | "usability" => some "UI/UX"
  | "interface_documentation" => some "UI/UX"
  | "git_practices" => some "Version Control"
  | "prompt_log" => some "Version Control"
  | _ => none

/-- `category_map.get(evaluation.criterion_id, 'Other')`: absent criterion
ids route to the "Other" bucket (`scoring_agent.py` line 225). -/
def categoryOf (cid : String) : String := (categoryMap cid).getD "Other"

/-- Score breakdown for one category (`CategoryBreakdown` in
`models/core.py`). -/
structure CategoryBreakdown where
  category_name : String
  total_weight : ℚ
  weighted_score : ℚ
  criteria : List CriterionEvaluation
deriving DecidableEq, Repr

/-- The category names in first-occurrence order: Python dicts preserve
insertion order, so the grouping loop of `_create_category_breakdown` lists
categories in the order their first member appears. -/
def categoryKeys (evals : List CriterionEvaluation) : List String :=
  evals.foldl
    (fun acc e =>
      if categoryOf e.criterion_id ∈ acc then acc
      else acc ++ [categoryOf e.criterion_id]) []

/-- The members of one category, in input order: appending each evaluation to
its category's list preserves relative order, i.e. it is a filter. -/
def categoryMembers (evals : List CriterionEvaluation) (c : String) :
    List CriterionEvaluation :=
  evals.filter (fun e => categoryOf e.criterion_id = c)

/-- The breakdown record for one category (`_create_category_breakdown`
lines 232–248): per-category total weight, weighted average of the RAW
(criticism-unadjusted) `score * weight`, rounded to 2 decimals, with the
`total_weight == 0` case reporting `0.0`. -/
def mkBreakdown (c : String) (es : List CriterionEvaluation) :
    CategoryBreakdown :=
  let total_weight := (es.map (·.weight)).sum
  let weighted_sum := (es.map (fun e => e.score * e.weight)).sum
  let weighted_score :=
    if 0 < total_weight then weighted_sum / total_weight else 0
  { category_name := c
    total_weight := total_weight
    weighted_score := round2 weighted_score
    criteria := es }

/-- `ScoringAgent._create_category_breakdown` (lines 187–250): the breakdown
map as an insertion-ordered association list. -/
def createCategoryBreakdown (evals : List CriterionEvaluation) :
    List (String × CategoryBreakdown) :=
  (categoryKeys evals).map (fun c => (c, mkBreakdown c (categoryMembers evals c)))

/-- Format a rational with one decimal digit, for Python's
`f"{x:.1f}"` on nonnegative values (the only use sites pass values `> 5`). -/
def fmt1 (q : ℚ) : String :=
  let n := roundHalfEven (q * 10)
  toString (n / 10) ++ "." ++ toString (n % 10)

/-- `ScoringAgent._generate_comparison_message` (lines 252–308). -/
def generateComparisonMessage (final_score : ℚ) (self_grade : ℤ)
    (criticism_multiplier : ℚ) : String :=
  let difference : ℚ := final_score - self_grade
  let accuracy :=
    if |difference| < 2 then "very accurate"
    else if |difference| < 5 then "quite accurate"
    else if |difference| < 10 then "reasonably accurate"
    else "somewhat inaccurate"
  let direction :=
    if 5 < difference then
      "higher than your self-assessment by " ++ fmt1 difference ++ " points"
    else if difference < -5 then
      "lower than your self-assessment by " ++ fmt1 |difference| ++ " points"
    else "very close to your self-assessment"
  let interpretation :=
    if 5 < difference then "You were more modest than necessary."
    else if difference < -5 then "You may have overestimated some aspects."
    else "Your self-evaluation was well-calibrated."
  let multiplier_note :=
    if 3/2 ≤ criticism_multiplier then
      " (evaluated with very strict standards due to high self-grade)"
    else if 6/5 ≤ criticism_multiplier then
      " (evaluated with strict standards)"
    else if criticism_multiplier ≤ 3/5 then
      " (evaluated with supportive standards)"
    else if criticism_multiplier ≤ 4/5 then
      " (evaluated with encouraging standards)"
    else ""
  "Your self-assessment was " ++ accuracy ++ ". " ++
    "The final grade is " ++ direction ++ ". " ++
    interpretation ++ multiplier_note

/-- The engine's output (`GradingResult` in `models/core.py`). The
`timestamp` field (default `datetime.now()`) is the nondeterministic field
and is not part of the embedding. -/
structure GradingResult where
  submission_id : String
  self_grade : ℤ
  final_score : ℚ
  criticism_multiplier : ℚ
  evaluations : List CriterionEvaluation
  breakdown : List (String × CategoryBreakdown)
  comparison_message : String
  processing_time_seconds : ℚ
deriving DecidableEq, Repr

/-- One step of the weighted-sum loop of `ScoringAgent.execute`
(lines 80–93): the accumulator is `(weighted_sum, total_weight)`. -/
def loopStep (cfg : SeverityConfig) (multiplier : ℚ) (acc : ℚ × ℚ)
    (e : CriterionEvaluation) : ℚ × ℚ :=
  let adjusted := applyCriticismMultiplier (e.score * factorOf cfg e.severity) multiplier
  (acc.1 + adjusted * e.weight, acc.2 + e.weight)

/-- `ScoringAgent.execute` (lines 57–149) under an injected severity-factor
configuration: the happy path producing the `GradingResult`, with the
orchestrator-filled placeholders (`submission_id = ""`,
`processing_time_seconds = 0.0`) as the code writes them. -/
def executeCfg (cfg : SeverityConfig) (evals : List CriterionEvaluation)
    (criticism_multiplier : ℚ) (self_grade : ℤ) : GradingResult :=
  let sums := evals.foldl (loopStep cfg criticism_multiplier) (0, 0)
  let final_score := if 0 < sums.2 then sums.1 / sums.2 else 0
  let final_score := max 0 (min 100 final_score)
  { submission_id := ""
    self_grade := self_grade
    final_score := round2 final_score
    criticism_multiplier := criticism_multiplier
    evaluations := evals
    breakdown := createCategoryBreakdown evals
    comparison_message :=
      generateComparisonMessage final_score self_grade criticism_multiplier
    processing_time_seconds := 0 }

/-- `ScoringAgent.execute` with the default severity factors
(`ScoringAgent({})`). -/
def execute (evals : List CriterionEvaluation) (criticism_multiplier : ℚ)
    (self_grade : ℤ) : GradingResult :=
  executeCfg defaultConfig evals criticism_multiplier self_grade

/-- `OrchestratorAgent._calculate_criticism_multiplier`
(`orchestrator_agent.py` lines 261–283). -/
def calculateCriticismMultiplier (self_grade : ℤ) : ℚ :=
  if 90 ≤ self_grade then 3/2
  else if 80 ≤ self_grade then 6/5
  else if 70 ≤ self_grade then 1
  else if 60 ≤ self_grade then 4/5
  else 3/5

/-- A pydantic `ValidationError` / `ValueError`, carrying the offending
field's name and its value — the descriptive content of messages such as
`"Score must be between 0 and 100, got {v}"`. -/
inductive ValidationError where
  | fieldOutOfRange (field : String) (value : ℚ)
  | intFieldOutOfRange (field : String) (value : ℤ)
  | invalidSeverity (value : String)
deriving DecidableEq, Repr

/-- Pydantic validation of a `CriterionEvaluation` (`models/core.py`
lines 164–190): field bounds in declaration order (`weight` before `score`
before `severity`), the `Literal` check on `severity`, and the field
validators, which round accepted values (`score` to 2 decimals, `weight`
to 4) — they never clamp. Errors name the offending field and value. -/
def validateCriterionEvaluation (cid cname : String) (weight score : ℚ)
    (severity : String) : Except ValidationError CriterionEvaluation :=
  if 0 ≤ weight ∧ weight ≤ 1 then
    if 0 ≤ score ∧ score ≤ 100 then
      match Severity.ofString severity with
      | none => .error (.invalidSeverity severity)
      | some sev => .ok ⟨cid, cname, round4 weight, round2 score, sev⟩
    else .error (.fieldOutOfRange "score" score)
  else .error (.fieldOutOfRange "weight" weight)

/-- The validated scoring input (`ScoringInput` in `models/io.py`). -/
structure ScoringInput where
  evaluations : List CriterionEvaluation
  criticism_multiplier : ℚ
  self_grade : ℤ
deriving DecidableEq, Repr

/-- Pydantic validation of `ScoringInput` (`models/io.py` lines 28–40):
`criticism_multiplier` must be `> 0`, `self_grade` in `[0,100]`. -/
def validateScoringInput (evals : List CriterionEvaluation) (m : ℚ)
    (sg : ℤ) : Except ValidationError ScoringInput :=
  if 0 < m then
    if 0 ≤ sg ∧ sg ≤ 100 then .ok ⟨evals, m, sg⟩
    else .error (.intFieldOutOfRange "self_grade" sg)
  else .error (.fieldOutOfRange "criticism_multiplier" m)

/-- Pydantic field bounds of `CategoryBreakdown` (`models/core.py`
lines 193–207): `total_weight` must satisfy `ge=0.0, le=1.0` and
`weighted_score` must satisfy `ge=0.0, le=100.0`; constructing a value
outside them raises a `ValidationError`. -/
def checkCategoryBreakdown (bd : CategoryBreakdown) :
    Except ValidationError CategoryBreakdown :=
  if 0 ≤ bd.total_weight ∧ bd.total_weight ≤ 1 then
    if 0 ≤ bd.weighted_score ∧ bd.weighted_score ≤ 100 then .ok bd
    else .error (.fieldOutOfRange "weighted_score" bd.weighted_score)
  else .error (.fieldOutOfRange "total_weight" bd.total_weight)

/-- The per-category loop of `_create_category_breakdown` with the pydantic
construction of each `CategoryBreakdown` made explicit: the first
out-of-bounds record raises. -/
def checkedEntries (evals : List CriterionEvaluation) :
    List String → Except ValidationError (List (String × CategoryBreakdown))
  | [] => .ok []
  | c :: rest => do
      let bd ← checkCategoryBreakdown (mkBreakdown c (categoryMembers evals c))
      let tail ← checkedEntries evals rest
      pure ((c, bd) :: tail)

/-- `_create_category_breakdown` with pydantic validation explicit. -/
def createCategoryBreakdownChecked (evals : List CriterionEvaluation) :
    Except ValidationError (List (String × CategoryBreakdown)) :=
  checkedEntries evals (categoryKeys evals)

/-- Pydantic validation at `GradingResult` construction (`models/core.py`
lines 228–252): `self_grade ∈ [0,100]`, `criticism_multiplier > 0`, and the
`final_score` bound plus its field validator, which re-rounds to
2 decimals. -/
def mkGradingResultChecked (r : GradingResult) :
    Except ValidationError GradingResult :=
  if 0 ≤ r.self_grade ∧ r.self_grade ≤ 100 then
    if 0 ≤ r.final_score ∧ r.final_score ≤ 100 then
      if 0 < r.criticism_multiplier then
        .ok { r with final_score := round2 r.final_score }
      else .error (.fieldOutOfRange "criticism_multiplier" r.criticism_multiplier)
    else .error (.fieldOutOfRange "final_score" r.final_score)
  else .error (.intFieldOutOfRange "self_grade" r.self_grade)

/-- `ScoringAgent.execute` with the pydantic constructions made explicit:
any `ValidationError` raised while building the breakdown or the
`GradingResult` is caught by the agent's `except` clause, which turns it
into an error `AgentResult` — modelled as `Except.error`. -/
def executeChecked (cfg : SeverityConfig) (evals : List CriterionEvaluation)
    (criticism_multiplier : ℚ) (self_grade : ℤ) :
    Except ValidationError GradingResult := do
  let breakdown ← createCategoryBreakdownChecked evals
  mkGradingResultChecked
    { executeCfg cfg evals criticism_multiplier self_grade with
        breakdown := breakdown }

/-- The external `Score` operation of §6: validated input, then the engine
under the default severity factors. -/
def Score (evals : List CriterionEvaluation) (criticism_multiplier : ℚ)
    (self_grade : ℤ) : Except ValidationError GradingResult := do
  let input ← validateScoringInput evals criticism_multiplier self_grade
  executeChecked defaultConfig input.evaluations input.criticism_multiplier
    input.self_grade

/-! ## Helper definitions and lemmas -/

/-- Spec-side weighted sum: `Σ adjusted_i * weight_i` (§4.3 step 2). -/
def weightedSum (evals : List CriterionEvaluation) (multiplier : ℚ) : ℚ :=
  (evals.map (fun e => adjust e.score e.severity multiplier * e.weight)).sum

/-- Spec-side total weight: `Σ weight_i` (§4.3 step 2). -/
def totalWeight (evals : List CriterionEvaluation) : ℚ :=
  (evals.map (·.weight)).sum

lemma foldl_loopStep (cfg : SeverityConfig) (m : ℚ)
    (l : List CriterionEvaluation) (a b : ℚ) :
    l.foldl (loopStep cfg m) (a, b) =
      (a + (l.map (fun e =>
          applyCriticismMultiplier (e.score * factorOf cfg e.severity) m
            * e.weight)).sum,
       b + (l.map (·.weight)).sum) := by
  induction l generalizing a b with
  | nil => simp
  | cons e l ih =>
      simp only [List.foldl_cons, List.map_cons, List.sum_cons, loopStep, ih]
      simp only [Prod.mk.injEq]
      constructor <;> ring

lemma defaultFactor_nonneg (s : Severity) : 0 ≤ defaultFactor s := by
  cases s <;> norm_num [defaultFactor]

lemma defaultFactor_le_one (s : Severity) : defaultFactor s ≤ 1 := by
  cases s <;> norm_num [defaultFactor]

lemma round2_zero : round2 0 = 0 := by
  norm_num [round2, roundHalfEven]

lemma applyCriticismMultiplier_bounds (s m : ℚ) (hs0 : 0 ≤ s)
    (hs1 : s ≤ 100) :
    0 ≤ applyCriticismMultiplier s m ∧ applyCriticismMultiplier s m ≤ 100 := by
  unfold applyCriticismMultiplier
  split_ifs with h1 h2 h3
  · exact ⟨hs0, hs1⟩
  · refine ⟨le_max_left 0 _, max_le (by norm_num) ?_⟩
    nlinarith [not_le.mp h1]
  · have hb : 0 ≤ (100 - s) * (1 - m) * (3/10) := by
      have := not_le.mp h1
      nlinarith [mul_nonneg (by linarith : (0:ℚ) ≤ 100 - s)
        (by linarith : (0:ℚ) ≤ 1 - m)]
    exact ⟨le_min (by norm_num) (by linarith), min_le_left _ _⟩
  · exact ⟨hs0, hs1⟩

lemma applyCriticismMultiplier_anti (s m₁ m₂ : ℚ) (hs0 : 0 ≤ s)
    (hs : s < 100) (h : m₁ ≤ m₂) :
    applyCriticismMultiplier s m₂ ≤ applyCriticismMultiplier s m₁ := by
  unfold applyCriticismMultiplier
  have hns : ¬ (100 ≤ s) := not_le.mpr hs
  simp only [if_neg hns]
  have h100 : (0:ℚ) ≤ 100 - s := by linarith
  by_cases ha : 1 < m₂
  · rw [if_pos ha]
    by_cases hb : 1 < m₁
    · rw [if_pos hb]
      refine max_le_max le_rfl ?_
      nlinarith [mul_nonneg h100 (by linarith : (0:ℚ) ≤ m₂ - m₁)]
    · have hmax : max 0 (s - (100 - s) * (m₂ - 1) * (2/10)) ≤ s := by
        refine max_le hs0 ?_
        nlinarith [mul_nonneg h100 (by linarith : (0:ℚ) ≤ m₂ - 1)]
      rw [if_neg hb]
      by_cases hc : m₁ < 1
      · rw [if_pos hc]
        refine le_trans hmax (le_min (le_of_lt hs) ?_)
        nlinarith [mul_nonneg h100 (by linarith : (0:ℚ) ≤ 1 - m₁)]
      · rw [if_neg hc]
        exact hmax
  · rw [if_neg ha]
    by_cases hd : m₂ < 1
    · have hb : ¬ 1 < m₁ := by push_neg at ha ⊢; linarith
      have hc : m₁ < 1 := lt_of_le_of_lt h hd
      rw [if_pos hd, if_neg hb, if_pos hc]
      refine min_le_min le_rfl ?_
      nlinarith [mul_nonneg h100 (by linarith : (0:ℚ) ≤ m₂ - m₁)]
    · rw [if_neg hd]
      by_cases hb : 1 < m₁
      · exact absurd (lt_of_lt_of_le hb h) (by push_neg at ha hd; intro hx; linarith)
      · rw [if_neg hb]
        by_cases hc : m₁ < 1
        · rw [if_pos hc]
          refine le_min (le_of_lt hs) ?_
          nlinarith [mul_nonneg h100 (by linarith : (0:ℚ) ≤ 1 - m₁)]
        · rw [if_neg hc]

lemma mem_foldl_keys (l : List CriterionEvaluation) :
    ∀ (acc : List String) (x : String),
      (x ∈ l.foldl
        (fun acc e =>
          if categoryOf e.criterion_id ∈ acc then acc
          else acc ++ [categoryOf e.criterion_id]) acc) ↔
      x ∈ acc ∨ ∃ e ∈ l, categoryOf e.criterion_id = x := by
  induction l with
  | nil => simp
  | cons e l ih =>
      intro acc x
      simp only [List.foldl_cons, ih, List.mem_cons]
      by_cases hk : categoryOf e.criterion_id ∈ acc
      · rw [if_pos hk]
        constructor
        · rintro (hx | he)
          · exact Or.inl hx
          · exact Or.inr ⟨he.choose, ⟨Or.inr he.choose_spec.1, he.choose_spec.2⟩⟩
        · rintro (hx | ⟨e', he', hkey⟩)
          · exact Or.inl hx
          · rcases he' with he' | he'
            · subst he'; exact Or.inl (hkey ▸ hk)
            · exact Or.inr ⟨e', he', hkey⟩
      · rw [if_neg hk]
        simp only [List.mem_append, List.mem_singleton]
        constructor
        · rintro ((hx | hx) | ⟨e', he', hkey⟩)
          · exact Or.inl hx
          · exact Or.inr ⟨e, Or.inl rfl, hx.symm⟩
          · exact Or.inr ⟨e', Or.inr he', hkey⟩
        · rintro (hx | ⟨e', he' | he', hkey⟩)
          · exact Or.inl (Or.inl hx)
          · subst he'; exact Or.inl (Or.inr hkey.symm)
          · exact Or.inr ⟨e', he', hkey⟩

lemma mkGradingResultChecked_ok (r : GradingResult)
    (h1 : 0 ≤ r.self_grade) (h2 : r.self_grade ≤ 100)
    (h3 : 0 ≤ r.final_score) (h4 : r.final_score ≤ 100)
    (h5 : 0 < r.criticism_multiplier) :
    mkGradingResultChecked r =
      .ok { r with final_score := round2 r.final_score } := by
  unfold mkGradingResultChecked
  rw [if_pos ⟨h1, h2⟩, if_pos ⟨h3, h4⟩, if_pos h5]

lemma update_breakdown_eq (r : GradingResult) (h : r.breakdown = []) :
    ({ r with breakdown := [] } : GradingResult) = r := by
  cases r
  simp_all

lemma update_final_score_eq (r : GradingResult) (h : r.final_score = 0) :
    ({ r with final_score := 0 } : GradingResult) = r := by
  cases r
  simp_all

lemma mem_categoryKeys {evals : List CriterionEvaluation}
    {e : CriterionEvaluation} (he : e ∈ evals) :
    categoryOf e.criterion_id ∈ categoryKeys evals := by
  unfold categoryKeys
  rw [mem_foldl_keys]
  exact Or.inr ⟨e, he, rfl⟩

lemma roundHalfEven_intCast (n : ℤ) : roundHalfEven (n : ℚ) = n := by
  unfold roundHalfEven
  rw [Int.floor_intCast]
  norm_num

lemma round2_eq (q : ℚ) (n : ℤ) (h : q * 100 = (n : ℚ)) :
    round2 q = (n : ℚ) / 100 := by
  unfold round2
  rw [h, roundHalfEven_intCast]

lemma foldl_loopStep_cfg_eq (cfg₁ cfg₂ : SeverityConfig) (m : ℚ)
    (l : List CriterionEvaluation) :
    ∀ acc : ℚ × ℚ,
      (∀ e ∈ l, factorOf cfg₁ e.severity = factorOf cfg₂ e.severity) →
      l.foldl (loopStep cfg₁ m) acc = l.foldl (loopStep cfg₂ m) acc := by
  induction l with
  | nil => intro acc _; rfl
  | cons e l ih =>
      intro acc hall
      simp only [List.foldl_cons]
      rw [show loopStep cfg₁ m acc e = loopStep cfg₂ m acc e from by
        simp [loopStep, hall e (List.mem_cons_self e l)]]
      exact ih _ (fun e' he' => hall e' (List.mem_cons_of_mem _ he'))

/-! ## Claims -/

/-- **C1.** For every sequence of valid `CriterionEvaluation`s and every
positive multiplier, `ScoringAgent.execute` computes each evaluation's
adjusted score with `adjust`, forms `weighted_sum = Σ adjusted_i * weight_i`
and `total_weight = Σ weight_i`, and returns
`final_score = weighted_sum / total_weight` when `total_weight > 0` and `0.0`
otherwise, clamped to `[0,100]` and rounded to 2 decimals; the empty list
yields `final_score = 0.0` with an empty breakdown, and the empty degenerate
case is a successful `Score` call, not an error. -/
theorem execute_final_score_spec (evals : List CriterionEvaluation)
    (m : ℚ) (sg : ℤ) (hm : 0 < m) (hv : ∀ e ∈ evals, ValidEvaluation e)
    (hsg0 : 0 ≤ sg) (hsg1 : sg ≤ 100) :
    (execute evals m sg).final_score =
      round2 (max 0 (min 100
        (if 0 < totalWeight evals then weightedSum evals m / totalWeight evals
          else 0)))
    ∧ (execute [] m sg).final_score = 0
    ∧ (execute [] m sg).breakdown = []
    ∧ Score [] m sg = .ok (execute [] m sg) := by
  have hempty : (execute [] m sg).final_score = 0 := by
    simp [execute, executeCfg, round2_zero]
  refine ⟨?_, hempty, rfl, ?_⟩
  · simp only [execute, executeCfg, foldl_loopStep, zero_add, weightedSum,
      totalWeight, adjust, factorOf, defaultConfig, Option.getD_some]
  · have hv' : validateScoringInput [] m sg = .ok ⟨[], m, sg⟩ := by
      simp [validateScoringInput, hm, hsg0, hsg1]
    unfold Score
    rw [hv']
    show mkGradingResultChecked { execute [] m sg with breakdown := [] } =
      .ok (execute [] m sg)
    have hbd : (execute [] m sg).breakdown = [] := rfl
    rw [update_breakdown_eq _ hbd,
      mkGradingResultChecked_ok _ hsg0 hsg1 hempty.ge (by rw [hempty]; norm_num) hm,
      hempty, round2_zero, update_final_score_eq _ hempty]

/-- **C2.** For every `raw_score ∈ [0,100]`, every severity, and every
multiplier `> 0`, `adjust` first dampens by the default severity factor
(`critical→0.5, important→0.8, minor→0.95, strength→1.0`), then applies the
criticism adjustment exactly as specified (perfect scores unchanged, penalty
branch for `multiplier > 1`, bonus branch for `multiplier < 1`, identity at
`1.0`), and the output always lies in `[0,100]`. -/
theorem adjust_spec (raw : ℚ) (sev : Severity) (m : ℚ)
    (h0 : 0 ≤ raw) (h100 : raw ≤ 100) (hm : 0 < m) :
    (adjust raw sev m =
      (let s := raw * (match sev with
          | .critical => (0.5 : ℚ)
          | .important => 0.8
          | .minor => 0.95
          | .strength => 1);
        if 100 ≤ s then s
        else if 1 < m then max 0 (s - (100 - s) * (m - 1) * 0.2)
        else if m < 1 then min 100 (s + (100 - s) * (1 - m) * 0.3)
        else s))
    ∧ 0 ≤ adjust raw sev m ∧ adjust raw sev m ≤ 100 := by
  have hf0 := defaultFactor_nonneg sev
  have hf1 := defaultFactor_le_one sev
  have hs0 : 0 ≤ raw * defaultFactor sev := mul_nonneg h0 hf0
  have hs1 : raw * defaultFactor sev ≤ 100 := by nlinarith
  refine ⟨?_, (applyCriticismMultiplier_bounds _ m hs0 hs1).1,
    (applyCriticismMultiplier_bounds _ m hs0 hs1).2⟩
  cases sev <;> norm_num [adjust, defaultFactor, applyCriticismMultiplier]

/-- **C4.** For every `self_grade ∈ [0,100]`, the criticism multiplier
calculator is total and returns exactly one of `{0.6, 0.8, 1.0, 1.2, 1.5}`,
following the step table (`≥90→1.5`, `80–89→1.2`, `70–79→1.0`, `60–69→0.8`,
`<60→0.6`), with the stated values at every boundary. -/
theorem calculateCriticismMultiplier_spec (sg : ℤ) (h0 : 0 ≤ sg)
    (h1 : sg ≤ 100) :
    calculateCriticismMultiplier sg ∈ ([0.6, 0.8, 1, 1.2, 1.5] : List ℚ)
    ∧ (90 ≤ sg → calculateCriticismMultiplier sg = 1.5)
    ∧ (80 ≤ sg → sg ≤ 89 → calculateCriticismMultiplier sg = 1.2)
    ∧ (70 ≤ sg → sg ≤ 79 → calculateCriticismMultiplier sg = 1)
    ∧ (60 ≤ sg → sg ≤ 69 → calculateCriticismMultiplier sg = 0.8)
    ∧ (sg ≤ 59 → calculateCriticismMultiplier sg = 0.6)
    ∧ calculateCriticismMultiplier 89 = 1.2
    ∧ calculateCriticismMultiplier 90 = 1.5
    ∧ calculateCriticismMultiplier 59 = 0.6
    ∧ calculateCriticismMultiplier 60 = 0.8 := by
  refine ⟨?_, ?_, ?_, ?_, ?_, ?_,
    by norm_num [calculateCriticismMultiplier],
    by norm_num [calculateCriticismMultiplier],
    by norm_num [calculateCriticismMultiplier],
    by norm_num [calculateCriticismMultiplier]⟩
  · unfold calculateCriticismMultiplier
    split_ifs <;> norm_num
  all_goals
    intros
    unfold calculateCriticismMultiplier
    split_ifs <;> first | omega | norm_num

/-- **C3.** The category breakdown groups evaluations by the fixed
`criterion_id → category_name` table with an "Other" bucket for unknown
criterion ids, is independent of the criticism multiplier, and each
category's `weighted_score` is the category's own weighted average of RAW
scores, rounded to 2 decimals, with `weighted_score = 0.0` when the
category's `total_weight` is `0`. -/
theorem breakdown_spec (evals : List CriterionEvaluation) (m m' : ℚ)
    (sg : ℤ) :
    (execute evals m sg).breakdown = (execute evals m' sg).breakdown
    ∧ (∀ cid, categoryMap cid = none → categoryOf cid = "Other")
    ∧ (∀ e ∈ evals, ∃ bd,
        (categoryOf e.criterion_id, bd) ∈ (execute evals m sg).breakdown
        ∧ e ∈ bd.criteria)
    ∧ (∀ c bd, (c, bd) ∈ (execute evals m sg).breakdown →
        bd.criteria = evals.filter (fun e => categoryOf e.criterion_id = c)
        ∧ bd.total_weight = (bd.criteria.map (·.weight)).sum
        ∧ bd.weighted_score =
            round2 (if 0 < bd.total_weight
              then (bd.criteria.map (fun e => e.score * e.weight)).sum
                / bd.total_weight
              else 0)
        ∧ (bd.total_weight = 0 → bd.weighted_score = 0)) := by
  refine ⟨rfl, ?_, ?_, ?_⟩
  · intro cid h
    simp [categoryOf, h]
  · intro e he
    refine ⟨mkBreakdown (categoryOf e.criterion_id)
      (categoryMembers evals (categoryOf e.criterion_id)), ?_, ?_⟩
    · exact List.mem_map.mpr ⟨categoryOf e.criterion_id, mem_categoryKeys he, rfl⟩
    · exact List.mem_filter.mpr ⟨he, by simp⟩
  · intro c bd hmem
    obtain ⟨c', hc', heq⟩ := List.mem_map.mp hmem
    injection heq with h1 h2
    subst h1
    subst h2
    refine ⟨rfl, rfl, rfl, ?_⟩
    intro h
    simp only [mkBreakdown] at h ⊢
    rw [h]
    simp [round2_zero]

/-- **C7.** For fixed severity and fixed raw score whose severity-dampened
value is below 100, `adjust` is non-increasing in the multiplier on
`[1, ∞)`, and a smaller multiplier below `1.0` never yields a smaller
adjusted score. -/
theorem adjust_monotone_in_multiplier (raw : ℚ) (sev : Severity)
    (m₁ m₂ : ℚ) (h0 : 0 ≤ raw) (hs : raw * defaultFactor sev < 100) :
    (1 ≤ m₁ → m₁ ≤ m₂ → adjust raw sev m₂ ≤ adjust raw sev m₁)
    ∧ (0 < m₁ → m₁ ≤ m₂ → m₂ ≤ 1 → adjust raw sev m₂ ≤ adjust raw sev m₁) := by
  have hs0 : 0 ≤ raw * defaultFactor sev :=
    mul_nonneg h0 (defaultFactor_nonneg sev)
  exact ⟨fun _ h12 => applyCriticismMultiplier_anti _ _ _ hs0 hs h12,
    fun _ h12 _ => applyCriticismMultiplier_anti _ _ _ hs0 hs h12⟩

/-- **C8.** For the single evaluation `score=90, severity=minor, weight=1`
with `multiplier=1.5`: the dampened score is `85.5`, the penalty is
`(100 - 85.5) * 0.5 * 0.2 = 1.45`, the adjusted score is `84.05`, and the
engine's `final_score` is exactly `84.05`. -/
theorem strictness_numeric_example :
    (90 : ℚ) * defaultFactor .minor = 85.5
    ∧ ((100 : ℚ) - 90 * defaultFactor .minor) * ((1.5 : ℚ) - 1) * (2/10)
      = 1.45
    ∧ adjust 90 .minor 1.5 = 84.05
    ∧ (execute [⟨"test", "Test", 1, 90, .minor⟩] 1.5 95).final_score
      = 84.05 := by
  have hadj : adjust 90 .minor 1.5 = 1681/20 := by
    rw [adjust, defaultFactor, applyCriticismMultiplier]
    rw [if_neg (by norm_num), if_pos (by norm_num)]
    rw [max_eq_right (by norm_num)]
    norm_num
  refine ⟨by norm_num [defaultFactor], by norm_num [defaultFactor],
    by rw [hadj]; norm_num, ?_⟩
  show (executeCfg defaultConfig _ _ _).final_score = _
  simp only [executeCfg, List.foldl_cons, List.foldl_nil, loopStep]
  have hfac : factorOf defaultConfig Severity.minor = defaultFactor .minor := rfl
  simp only [hfac]
  rw [show (90 : ℚ) * defaultFactor .minor = 90 * defaultFactor .minor from rfl]
  have : applyCriticismMultiplier
      ((⟨"test", "Test", 1, 90, .minor⟩ : CriterionEvaluation).score
        * defaultFactor (⟨"test", "Test", 1, 90, .minor⟩ :
          CriterionEvaluation).severity) 1.5 = 1681/20 := hadj
  rw [this]
  rw [if_pos (by norm_num : (0:ℚ) < 0 + (1:ℚ))]
  rw [min_eq_right (by norm_num), max_eq_right (by norm_num)]
  rw [round2_eq _ 8405 (by norm_num)]
  norm_num

/-- **C9.** The Score operation is deterministic: two calls with identical
evaluations, criticism multiplier and self-grade produce identical results
in every embedded field (the wall-clock `timestamp` is outside the
embedding; `submission_id` and `processing_time_seconds` are written as
fixed placeholders, to be filled post-hoc by the orchestrator). -/
theorem score_deterministic (i₁ i₂ : ScoringInput) (h : i₁ = i₂) :
    executeChecked defaultConfig i₁.evaluations i₁.criticism_multiplier
        i₁.self_grade
      = executeChecked defaultConfig i₂.evaluations i₂.criticism_multiplier
        i₂.self_grade
    ∧ execute i₁.evaluations i₁.criticism_multiplier i₁.self_grade
      = execute i₂.evaluations i₂.criticism_multiplier i₂.self_grade
    ∧ (execute i₁.evaluations i₁.criticism_multiplier
        i₁.self_grade).submission_id = ""
    ∧ (execute i₁.evaluations i₁.criticism_multiplier
        i₁.self_grade).processing_time_seconds = 0 := by
  subst h
  exact ⟨rfl, rfl, rfl, rfl⟩

/-- **C10.** If the injected severity-factor configuration has no entry for
an evaluation's severity, the engine silently uses factor `1.0` for it (the
raw score is left undampened) rather than rejecting the configuration or
failing: the factor lookup of a missing key is `1.0`, and a run in which
every evaluation's severity is missing from the configuration coincides
with a run under the all-ones configuration. -/
theorem missing_severity_factor_defaults (cfg : SeverityConfig)
    (evals : List CriterionEvaluation) (m : ℚ) (sg : ℤ)
    (hall : ∀ e ∈ evals, cfg e.severity = none) :
    (∀ s, cfg s = none → factorOf cfg s = 1)
    ∧ executeCfg cfg evals m sg = executeCfg (fun _ => some 1) evals m sg := by
  refine ⟨fun s h => by simp [factorOf, h], ?_⟩
  have hf : ∀ e ∈ evals,
      factorOf cfg e.severity = factorOf (fun _ => some 1) e.severity := by
    intro e he
    simp [factorOf, hall e he]
  simp only [executeCfg]
  rw [foldl_loopStep_cfg_eq cfg (fun _ => some 1) m evals (0, 0) hf]

/-- Two valid evaluations in the same category ("Documentation") whose
weights sum to `1.2`. Each satisfies every `CriterionEvaluation` invariant
(`weight ∈ [0,1]`, `score ∈ [0,100]`). -/
def docEval1 : CriterionEvaluation :=
  ⟨"prd_quality", "PRD Quality", 3/5, 90, .strength⟩

/-- Second well-formed "Documentation" evaluation, see `docEval1`. -/
def docEval2 : CriterionEvaluation :=
  ⟨"readme", "README", 3/5, 80, .strength⟩

/-- **C5.** The spec requires `Score` to succeed on every well-formed input
(each evaluation satisfying the §3 invariants, positive multiplier,
`self_grade ∈ [0,100]`). The code does not: with two valid "Documentation"
evaluations of weight `0.6` each, the category's `total_weight` is `1.2`,
`CategoryBreakdown`'s pydantic bound `le=1.0` on `total_weight` raises, and
`execute` returns an error result. This exhibits the failing run. -/
theorem score_errors_on_wellformed_input :
    ValidEvaluation docEval1 ∧ ValidEvaluation docEval2
    ∧ (0 : ℚ) < 1 ∧ (0 : ℤ) ≤ 75 ∧ (75 : ℤ) ≤ 100
    ∧ Score [docEval1, docEval2] 1 75
      = .error (.fieldOutOfRange "total_weight" (6/5)) := by
  have hk : categoryKeys [docEval1, docEval2] = ["Documentation"] := rfl
  have hmem : categoryMembers [docEval1, docEval2] "Documentation"
      = [docEval1, docEval2] := rfl
  have htw : (mkBreakdown "Documentation" [docEval1, docEval2]).total_weight
      = 6/5 := by
    simp [mkBreakdown, docEval1, docEval2]
    norm_num
  have hchk : checkCategoryBreakdown
      (mkBreakdown "Documentation" [docEval1, docEval2])
      = .error (.fieldOutOfRange "total_weight" (6/5)) := by
    unfold checkCategoryBreakdown
    rw [htw, if_neg (by norm_num)]
  have hloop : createCategoryBreakdownChecked [docEval1, docEval2]
      = .error (.fieldOutOfRange "total_weight" (6/5)) := by
    unfold createCategoryBreakdownChecked
    rw [hk]
    show (do
      let bd ← checkCategoryBreakdown
        (mkBreakdown "Documentation"
          (categoryMembers [docEval1, docEval2] "Documentation"))
      let tail ← checkedEntries [docEval1, docEval2] []
      pure (("Documentation", bd) :: tail)) = _
    rw [hmem, hchk]
    rfl
  have hval : validateScoringInput [docEval1, docEval2] 1 75
      = .ok ⟨[docEval1, docEval2], 1, 75⟩ := by
    unfold validateScoringInput
    rw [if_pos (by norm_num), if_pos (by norm_num)]
  refine ⟨by norm_num [ValidEvaluation, docEval1],
    by norm_num [ValidEvaluation, docEval2],
    by norm_num, by norm_num, by norm_num, ?_⟩
  unfold Score
  rw [hval]
  show executeChecked defaultConfig [docEval1, docEval2] 1 75 = _
  unfold executeChecked
  rw [hloop]
  rfl

/-- **C6.** Out-of-range `score`, `weight` or `self_grade`, an invalid
severity string, or a non-positive multiplier each make the validation
boundary fail fast with an error naming the offending field and value; an
out-of-range value is never silently clamped into range — a successful
validation implies the input was in range, and it only rounds (score to 2,
weight to 4 decimals), never clamps. -/
theorem validation_fails_fast (cid cname : String) (w s : ℚ) (sev : String)
    (evals : List CriterionEvaluation) (m : ℚ) (sg : ℤ) :
    (¬(0 ≤ w ∧ w ≤ 1) →
      validateCriterionEvaluation cid cname w s sev
        = .error (.fieldOutOfRange "weight" w))
    ∧ ((0 ≤ w ∧ w ≤ 1) → ¬(0 ≤ s ∧ s ≤ 100) →
      validateCriterionEvaluation cid cname w s sev
        = .error (.fieldOutOfRange "score" s))
    ∧ ((0 ≤ w ∧ w ≤ 1) → (0 ≤ s ∧ s ≤ 100) → Severity.ofString sev = none →
      validateCriterionEvaluation cid cname w s sev
        = .error (.invalidSeverity sev))
    ∧ (∀ ce, validateCriterionEvaluation cid cname w s sev = .ok ce →
        (0 ≤ w ∧ w ≤ 1) ∧ (0 ≤ s ∧ s ≤ 100)
        ∧ ce.weight = round4 w ∧ ce.score = round2 s)
    ∧ (¬(0 < m) → validateScoringInput evals m sg
        = .error (.fieldOutOfRange "criticism_multiplier" m))
    ∧ (0 < m → ¬(0 ≤ sg ∧ sg ≤ 100) → validateScoringInput evals m sg
        = .error (.intFieldOutOfRange "self_grade" sg)) := by
  refine ⟨?_, ?_, ?_, ?_, ?_, ?_⟩
  · intro h
    unfold validateCriterionEvaluation
    rw [if_neg h]
  · intro h1 h2
    unfold validateCriterionEvaluation
    rw [if_pos h1, if_neg h2]
  · intro h1 h2 h3
    unfold validateCriterionEvaluation
    rw [if_pos h1, if_pos h2, h3]
  · intro ce hok
    unfold validateCriterionEvaluation at hok
    by_cases h1 : 0 ≤ w ∧ w ≤ 1
    · rw [if_pos h1] at hok
      by_cases h2 : 0 ≤ s ∧ s ≤ 100
      · rw [if_pos h2] at hok
        cases h3 : Severity.ofString sev with
        | none =>
            rw [h3] at hok
            exact Except.noConfusion hok
        | some sv =>
            rw [h3] at hok
            injection hok with hck
            exact ⟨h1, h2, by rw [← hck], by rw [← hck]⟩
      · rw [if_neg h2] at hok
        exact Except.noConfusion hok
    · rw [if_neg h1] at hok
      exact Except.noConfusion hok
  · intro h
    unfold validateScoringInput
    rw [if_neg h]
  · intro h1 h2
    unfold validateScoringInput
    rw [if_pos h1, if_neg h2]

/-- A concrete valid evaluation used to witness hypotheses. -/
def demoEval : CriterionEvaluation :=
  ⟨"unit_tests", "Unit Tests", 1/2, 80, .important⟩

/-- Witness for C1: the hypotheses hold at a concrete input. -/
theorem execute_final_score_spec_witness :
    (0 : ℚ) < 1 ∧ ValidEvaluation demoEval
    ∧ (0 : ℤ) ≤ 75 ∧ (75 : ℤ) ≤ 100
    ∧ (execute [] 1 75).final_score = 0 :=
  ⟨by norm_num, by norm_num [ValidEvaluation, demoEval], by decide, by decide,
    (execute_final_score_spec [demoEval] 1 75 (by norm_num)
      (by
        intro e he
        rw [List.mem_singleton] at he
        subst he
        norm_num [ValidEvaluation, demoEval])
      (by decide) (by decide)).2.1⟩

/-- Witness for C2: the hypotheses hold at a concrete input. -/
theorem adjust_spec_witness :
    (0 : ℚ) ≤ 90 ∧ (90 : ℚ) ≤ 100 ∧ (0 : ℚ) < 0.8
    ∧ 0 ≤ adjust 90 .minor 0.8 ∧ adjust 90 .minor 0.8 ≤ 100 :=
  ⟨by norm_num, by norm_num, by norm_num,
    (adjust_spec 90 .minor 0.8 (by norm_num) (by norm_num) (by norm_num)).2.1,
    (adjust_spec 90 .minor 0.8 (by norm_num) (by norm_num) (by norm_num)).2.2⟩

/-- Witness for C3 (whose binders are all data): a concrete instance. -/
theorem breakdown_spec_witness :
    (execute [demoEval] 1.5 80).breakdown
      = (execute [demoEval] 0.8 80).breakdown :=
  (breakdown_spec [demoEval] 1.5 0.8 80).1

/-- Witness for C4: the hypotheses hold at a concrete input. -/
theorem calculateCriticismMultiplier_spec_witness :
    (0 : ℤ) ≤ 85 ∧ (85 : ℤ) ≤ 100
    ∧ calculateCriticismMultiplier 85 ∈ ([0.6, 0.8, 1, 1.2, 1.5] : List ℚ) :=
  ⟨by decide, by decide,
    (calculateCriticismMultiplier_spec 85 (by decide) (by decide)).1⟩

/-- Witness for C6 (whose binders are all data): a concrete out-of-range
weight is rejected with the field and value. -/
theorem validation_fails_fast_witness :
    validateCriterionEvaluation "x" "X" 2 50 "minor"
      = .error (.fieldOutOfRange "weight" 2) :=
  (validation_fails_fast "x" "X" 2 50 "minor" [] 1 50).1 (by norm_num)

/-- Witness for C7: the hypotheses hold at a concrete input. -/
theorem adjust_monotone_in_multiplier_witness :
    (0 : ℚ) ≤ 90 ∧ 90 * defaultFactor .minor < 100
    ∧ (1 : ℚ) ≤ 1 ∧ (1 : ℚ) ≤ 1.5
    ∧ adjust 90 .minor 1.5 ≤ adjust 90 .minor 1 :=
  ⟨by norm_num, by norm_num [defaultFactor], by norm_num, by norm_num,
    (adjust_monotone_in_multiplier 90 .minor 1 1.5 (by norm_num)
      (by norm_num [defaultFactor])).1 (by norm_num) (by norm_num)⟩

/-- Witness for C9: a concrete pair of identical inputs. -/
theorem score_deterministic_witness :
    (execute [demoEval] 1 75).submission_id = "" :=
  (score_deterministic ⟨[demoEval], 1, 75⟩ ⟨[demoEval], 1, 75⟩ rfl).2.2.1

/-- Witness for C10: the hypotheses hold at a concrete configuration with
no severity entries at all. -/
theorem missing_severity_factor_defaults_witness :
    factorOf (fun _ => none) Severity.critical = 1 :=
  (missing_severity_factor_defaults (fun _ => none) [demoEval] 1 75
    (by intro e _; rfl)).1 Severity.critical rfl

end AutoGrader
